import Mathlib

/-!
Shallow embedding of `src/ast.rs` of the latex2mathml repository: the `Node`
AST and the `fmt::Display` implementation that serializes it to MathML.
Strings are Lean `String`s; the Rust `write!`/`push_str` accumulation is
embedded as string concatenation in emission order.
-/

namespace Latex2Mathml

/-- Modelled from the spec: the letter-style enumeration (`Variant`, from the
out-of-scope `attribute` module) is consumed as opaque data carrying a textual
name; the spec names the styles "italic, normal, bold, etc." and gives
`Italic` as the default style and `normal` as the textual name of `Normal`. -/
inductive Variant where
  | Italic : Variant
  | Normal : Variant
  | Bold : Variant
deriving DecidableEq, Repr

/-- Modelled from the spec: the textual name of a style, emitted as the
`mathvariant` attribute value (e.g. style "Normal" has attribute value
`normal`). -/
def Variant.toString : Variant → String
  | .Italic => "italic"
  | .Normal => "normal"
  | .Bold => "bold"

/-- Modelled from the spec: the accent tag (`Accent`, from the out-of-scope
`attribute` module) is consumed as opaque data with a textual form used as the
`accent` attribute value. -/
inductive Accent where
  | True : Accent
  | False : Accent
deriving DecidableEq, Repr

/-- Modelled from the spec: textual form of the accent tag. -/
def Accent.toString : Accent → String
  | .True => "true"
  | .False => "false"

/-- The AST node type of `src/ast.rs` (`pub enum Node`).  The Rust `f32`
payload of `Space` is embedded as the string of its decimal rendering (no
claim depends on float arithmetic), `&'static str` payloads as `String`,
`Box<Node>` as `Node`, `Vec<Node>` as `List Node`. -/
inductive Node where
  | Number : String → Node
  | Letter : Char → Variant → Node
  | Operator : Char → Node
  | Function : String → Option Node → Node
  | Space : String → Node
  | Subscript : Node → Node → Node
  | Superscript : Node → Node → Node
  | SubSup : Node → Node → Node → Node
  | OverOp : Char → Accent → Node → Node
  | UnderOp : Char → Accent → Node → Node
  | Overset : Node → Node → Node
  | Underset : Node → Node → Node
  | Under : Node → Node → Node
  | UnderOver : Node → Node → Node → Node
  | Sqrt : Option Node → Node → Node
  | Frac : Node → Node → Node
  | Row : List Node → Node
  | Fenced : String → String → Node → Node
  | OtherOperator : String → Node
  | Text : String → Node
  | Matrix : List Node → Node
  | Ampersand : Node
  | NewLine : Node
  | Slashed : Node → Node
  | Undefined : String → Node

/-- One character of Rust's `str` `Debug` formatting (`char::escape_debug`
with double quotes escaped, single quotes not): short escapes for tab,
carriage return, newline, backslash, double quote and NUL; `\u` escapes for
the remaining ASCII control characters and DEL.  This model is faithful to
the source exactly on code points below `0x80`: the source additionally
`\u`-escapes non-printable and grapheme-extended code points at or above
`0x80`, which pass through unchanged here, so every theorem about the
fallback arm's message constrains its characters to the faithful range. -/
def escapeDebugChar (c : Char) : String :=
  if c = '\t' then "\\t"
  else if c = '\r' then "\\r"
  else if c = '\n' then "\\n"
  else if c = '\\' then "\\\\"
  else if c = '"' then "\\\""
  else if c = '\x00' then "\\0"
  else if c.toNat < 0x20 ∨ c.toNat = 0x7f then
    "\\u\x7b" ++ String.mk (Nat.toDigits 16 c.toNat) ++ "\x7d"
  else c.toString

/-- Rust `Debug` escaping of a string's characters. -/
def escapeDebug (s : String) : String :=
  String.join (s.data.map escapeDebugChar)

/-- Rust `Debug` rendering of a `String` payload: the escaped characters
between double quotes, as produced by `{:?}` in the fallback arm. -/
def debugStr (s : String) : String :=
  "\"" ++ escapeDebug s ++ "\""

mutual

/-- `fmt::Display for Node` from `src/ast.rs`, arm by arm in source order.
The final `node => write!(f, "<mtext>[PARSE ERROR: {:?}]</mtext>", node)`
fallback arm is reached exactly by the `Ampersand`, `NewLine` and `Undefined`
variants (every other variant is matched by an earlier arm), so it is spelled
out here once per variant with `{:?}` expanded to the derived `Debug` form of
that variant. -/
def render : Node → String
  | .Number number => "<mn>" ++ number ++ "</mn>"
  | .Letter letter var =>
    match var with
    | .Italic => "<mi>" ++ letter.toString ++ "</mi>"
    | var => "<mi mathvariant=\"" ++ var.toString ++ "\">" ++ letter.toString ++ "</mi>"
  | .Operator op => "<mo>" ++ op.toString ++ "</mo>"
  | .Function name arg =>
    match arg with
    | some arg => "<mi>" ++ name ++ "</mi><mo>&#x2061;</mo>" ++ render arg
    | none => "<mi>" ++ name ++ "</mi>"
  | .Space space => "<mspace width=\"" ++ space ++ "em\"/>"
  | .Subscript a b => "<msub>" ++ render a ++ render b ++ "</msub>"
  | .Superscript a b => "<msup>" ++ render a ++ render b ++ "</msup>"
  | .SubSup target sub sup =>
    "<msubsup>" ++ render target ++ render sub ++ render sup ++ "</msubsup>"
  | .OverOp op acc target =>
    "<mover>" ++ render target ++ "<mo accent=\"" ++ acc.toString ++ "\">" ++ op.toString
      ++ "</mo></mover>"
  | .UnderOp op acc target =>
    "<munder>" ++ render target ++ "<mo accent=\"" ++ acc.toString ++ "\">" ++ op.toString
      ++ "</mo></munder>"
  | .Overset over target => "<mover>" ++ render target ++ render over ++ "</mover>"
  | .Underset under target => "<munder>" ++ render target ++ render under ++ "</munder>"
  | .Under target under => "<munder>" ++ render target ++ render under ++ "</munder>"
  | .UnderOver target under over =>
    "<munderover>" ++ render target ++ render under ++ render over ++ "</munderover>"
  | .Sqrt degree content =>
    match degree with
    | some deg => "<mroot>" ++ render content ++ render deg ++ "</mroot>"
    | none => "<msqrt>" ++ render content ++ "</msqrt>"
  | .Frac num denom => "<mfrac>" ++ render num ++ render denom ++ "</mfrac>"
  | .Row vec => "<mrow>" ++ renderList vec ++ "</mrow>"
  | .Fenced o c content =>
    "<mrow><mo stretchy=\"true\" form=\"prefix\">" ++ o ++ "</mo>" ++ render content
      ++ "<mo stretchy=\"true\" form=\"postfix\">" ++ c ++ "</mo></mrow>"
  | .OtherOperator op => "<mo>" ++ op ++ "</mo>"
  | .Slashed node =>
    match node with
    | .Letter x var =>
      "<mi mathvariant=\"" ++ var.toString ++ "\">" ++ x.toString ++ "&#x0338;</mi>"
    | .Operator x => "<mo>" ++ x.toString ++ "&#x0338;</mo>"
    | n => render n
  | .Matrix content =>
    "<mtable><mtr><mtd>" ++ renderMatrixItems content.length 0 content
      ++ "</mtd></mtr></mtable>"
  | .Text text => "<mtext>" ++ text ++ "</mtext>"
  | .Ampersand => "<mtext>[PARSE ERROR: Ampersand]</mtext>"
  | .NewLine => "<mtext>[PARSE ERROR: NewLine]</mtext>"
  | .Undefined s => "<mtext>[PARSE ERROR: Undefined(" ++ debugStr s ++ ")]</mtext>"

/-- The `Row` arm's `vec.iter().map(|node| format!("{}", node)).collect::<String>()`:
concatenation of the children's renderings in order. -/
def renderList : List Node → String
  | [] => ""
  | n :: ns => render n ++ renderList ns

/-- The loop body of the `Matrix` arm: a fold over `content.iter().enumerate()`
with `i` the current index and `len` the value of `content.len()`, appending
per item either the row-break markup (`NewLine`), the cell-break markup
(`Ampersand`), or the item's rendering.  The source's guard `i < content.len()`
is kept exactly as written (note `i` ranges over `0..content.len()`). -/
def renderMatrixItems (len : Nat) : Nat → List Node → String
  | _, [] => ""
  | i, n :: ns =>
    (match n with
      | Node.NewLine => "</mtd></mtr>" ++ if i < len then "<mtr><mtd>" else ""
      | Node.Ampersand => "</mtd>" ++ if i < len then "<mtd>" else ""
      | n => render n)
    ++ renderMatrixItems len (i + 1) ns

end

/-- Claim C1 (code bug evaluation): the claim says a trailing `NewLine` or
`Ampersand` at the very end of a `Matrix` sequence produces no extra empty
row or cell, but the source's last-index guard `i < content.len()` is always
true inside the `enumerate()` loop, so a trailing `NewLine` emits a dangling
empty `<mtr><mtd></mtd></mtr>` row and a trailing `Ampersand` a dangling
empty `<mtd></mtd>` cell.  This theorem evaluates the renderer at both
failing inputs. -/
theorem matrix_trailing_sentinel_emits_empty_row_and_cell :
    render (.Matrix [.Number "1", .NewLine]) =
      "<mtable><mtr><mtd><mn>1</mn></mtd></mtr><mtr><mtd></mtd></mtr></mtable>" ∧
    render (.Matrix [.Number "1", .Ampersand]) =
      "<mtable><mtr><mtd><mn>1</mn></mtd><mtd></mtd></mtr></mtable>" :=
  ⟨rfl, rfl⟩

/-- Claim C2 (counterexample): the claim says a `Slashed` default-style
(italic) `Letter` keeps the attribute-free `<mi>` shape of the plain variant,
but the `Slashed` `Letter` arm always emits the `mathvariant` attribute:
`Slashed(Letter('x', Italic))` renders with `mathvariant="italic"` while the
plain `Letter('x', Italic)` is attribute-free, so the claimed output
`<mi>x&#x0338;</mi>` is not produced. -/
theorem slashed_italic_letter_not_attribute_free :
    render (.Slashed (.Letter 'x' .Italic)) = "<mi mathvariant=\"italic\">x&#x0338;</mi>" ∧
    render (.Letter 'x' .Italic) = "<mi>x</mi>" ∧
    render (.Slashed (.Letter 'x' .Italic)) ≠ "<mi>x&#x0338;</mi>" :=
  ⟨rfl, rfl, by decide⟩

/-- Claim C2 (amended): `Slashed` over an `Operator` appends the combining
negation stroke `&#x0338;` after the glyph in the same `<mo>` shape as the
plain `Operator` (in particular `Slashed(Operator('='))` renders exactly
`<mo>=&#x0338;</mo>`); `Slashed` over a `Letter` appends the stroke inside an
`<mi>` that always carries the `mathvariant` attribute, even for the default
italic style. -/
theorem slashed_letter_operator_rendering (c : Char) (v : Variant) :
    render (.Slashed (.Operator c)) = "<mo>" ++ c.toString ++ "&#x0338;</mo>" ∧
    render (.Slashed (.Operator '=')) = "<mo>=&#x0338;</mo>" ∧
    render (.Slashed (.Letter c v)) =
      "<mi mathvariant=\"" ++ v.toString ++ "\">" ++ c.toString ++ "&#x0338;</mi>" :=
  ⟨rfl, rfl, rfl⟩

/-- On an ASCII-printable character other than backslash and double quote
(code point in `[0x20, 0x7f)`), Rust's `Debug` escaping is the identity, in
the source as in this model. -/
theorem escapeDebugChar_eq_self (c : Char) (h1 : 0x20 ≤ c.toNat) (h2 : c.toNat < 0x7f)
    (h3 : c ≠ '\\') (h4 : c ≠ '"') : escapeDebugChar c = c.toString := by
  have ht : c ≠ '\t' := by rintro rfl; revert h1; decide
  have hr : c ≠ '\r' := by rintro rfl; revert h1; decide
  have hn : c ≠ '\n' := by rintro rfl; revert h1; decide
  have h0 : c ≠ '\x00' := by rintro rfl; revert h1; decide
  have hu : ¬(c.toNat < 0x20 ∨ c.toNat = 0x7f) := by omega
  unfold escapeDebugChar
  rw [if_neg ht, if_neg hr, if_neg hn, if_neg h3, if_neg h4, if_neg h0, if_neg hu]

/-- Flattening a list of singleton lists gives back the original list. -/
theorem flatten_map_singleton (l : List Char) : (l.map (fun c => [c])).flatten = l := by
  induction l with
  | nil => rfl
  | cons c cs ih => simp [ih]

/-- A string made only of ASCII-printable characters other than backslash and
double quote is unchanged by `Debug` escaping. -/
theorem escapeDebug_eq_self (s : String)
    (h : ∀ c ∈ s.data, 0x20 ≤ c.toNat ∧ c.toNat < 0x7f ∧ c ≠ '\\' ∧ c ≠ '"') :
    escapeDebug s = s := by
  unfold escapeDebug
  rw [String.join_eq]
  have hmap : (s.data.map escapeDebugChar).map String.data = s.data.map (fun c => [c]) := by
    rw [List.map_map]
    refine List.map_congr_left fun c hc => ?_
    obtain ⟨h1, h2, h3, h4⟩ := h c hc
    simp only [Function.comp_apply, escapeDebugChar_eq_self c h1 h2 h3 h4]
    rfl
  rw [hmap, flatten_map_singleton]

/-- Claim C3: `render` is total by construction (it is a Lean function on all
of `Node`, with no error monad); an `Undefined` node with message `m` renders
to a single `<mtext>` diagnostic whose content mentions `m` (stated for
messages of ASCII-printable characters other than backslash and double quote,
the range on which the embedded `Debug` escaping is faithful and the
identity; other messages appear in escaped form), and a `Row` with an
`Undefined` leaf between two well-formed siblings still renders both siblings
normally. -/
theorem render_undefined_diagnostic (m : String) (a b : Node)
    (h : ∀ c ∈ m.data, 0x20 ≤ c.toNat ∧ c.toNat < 0x7f ∧ c ≠ '\\' ∧ c ≠ '"') :
    (∃ p q, render (.Undefined m) = p ++ m ++ q) ∧
    render (.Row [a, .Undefined m, b]) =
      "<mrow>" ++ render a ++ render (.Undefined m) ++ render b ++ "</mrow>" := by
  have hm : escapeDebug m = m := escapeDebug_eq_self m h
  constructor
  · refine ⟨"<mtext>[PARSE ERROR: Undefined(" ++ "\"", "\"" ++ ")]</mtext>", ?_⟩
    simp [render, debugStr, hm, String.append_assoc]
    have e : "<mtext>[PARSE ERROR: Undefined(" ++ "\"" = "<mtext>[PARSE ERROR: Undefined(\"" :=
      rfl
    rw [← String.append_assoc, e]
  · simp [render, renderList, String.append_assoc]

/-- Claim C3 (witness): the diagnostic rendering at the concrete message
`"x"` with concrete siblings. -/
theorem render_undefined_diagnostic_witness :
    (∀ c ∈ "x".data, 0x20 ≤ c.toNat ∧ c.toNat < 0x7f ∧ c ≠ '\\' ∧ c ≠ '"') ∧
    ((∃ p q, render (.Undefined "x") = p ++ "x" ++ q) ∧
      render (.Row [.Number "1", .Undefined "x", .Operator '+']) =
        "<mrow>" ++ render (.Number "1") ++ render (.Undefined "x") ++ render (.Operator '+')
          ++ "</mrow>") :=
  ⟨by decide, render_undefined_diagnostic "x" (.Number "1") (.Operator '+') (by decide)⟩

/-- Claim C4: `Sqrt` without a degree renders `<msqrt>` around the radicand;
`Sqrt` with a degree renders `<mroot>` with the radicand first and the degree
after it. -/
theorem sqrt_rendering (deg content : Node) :
    render (.Sqrt none content) = "<msqrt>" ++ render content ++ "</msqrt>" ∧
    render (.Sqrt (some deg) content) =
      "<mroot>" ++ render content ++ render deg ++ "</mroot>" :=
  ⟨rfl, rfl⟩

/-- Claim C5: a default-style (italic) `Letter` renders as an attribute-free
`<mi>`, and a `Letter` of any other style renders as
`<mi mathvariant="NAME">` where `NAME` is the style's textual name. -/
theorem letter_style_rendering (c : Char) (v : Variant) (h : v ≠ Variant.Italic) :
    render (.Letter c .Italic) = "<mi>" ++ c.toString ++ "</mi>" ∧
    render (.Letter c v) =
      "<mi mathvariant=\"" ++ v.toString ++ "\">" ++ c.toString ++ "</mi>" := by
  refine ⟨rfl, ?_⟩
  cases v with
  | Italic => exact absurd rfl h
  | Normal => rfl
  | Bold => rfl

/-- Claim C5 (witness): the two `Letter` shapes at the concrete character
`'x'` and the concrete non-default style `Normal`. -/
theorem letter_style_rendering_witness :
    Variant.Normal ≠ Variant.Italic ∧
    (render (.Letter 'x' .Italic) = "<mi>" ++ Char.toString 'x' ++ "</mi>" ∧
      render (.Letter 'x' .Normal) =
        "<mi mathvariant=\"" ++ Variant.toString .Normal ++ "\">" ++ Char.toString 'x'
          ++ "</mi>") :=
  ⟨by decide, letter_style_rendering 'x' .Normal (by decide)⟩

/-- Claim C6: a `Function` node renders its name as `<mi>NAME</mi>`; with an
argument present, the invisible function-application operator
`<mo>&#x2061;</mo>` is interposed between the name and the rendered argument;
with no argument, the name element stands alone. -/
theorem function_rendering (name : String) (arg : Node) :
    render (.Function name (some arg)) =
      "<mi>" ++ name ++ "</mi><mo>&#x2061;</mo>" ++ render arg ∧
    render (.Function name none) = "<mi>" ++ name ++ "</mi>" :=
  ⟨rfl, rfl⟩

/-- Claim C7: a `Slashed` node wrapping any variant other than `Letter` or
`Operator` renders exactly as the wrapped node renders on its own. -/
theorem slashed_fallback (n : Node)
    (hL : ∀ c v, n ≠ Node.Letter c v) (hO : ∀ c, n ≠ Node.Operator c) :
    render (.Slashed n) = render n := by
  cases n <;> try rfl
  case Letter c v => exact absurd rfl (hL c v)
  case Operator c => exact absurd rfl (hO c)

/-- Claim C7 (witness): the fallback at the concrete wrapped node
`Number "2"`, which is neither a `Letter` nor an `Operator`. -/
theorem slashed_fallback_witness :
    render (.Slashed (.Number "2")) = render (.Number "2") ∧
    render (.Number "2") = "<mn>2</mn>" :=
  ⟨slashed_fallback (.Number "2") (fun _ _ h => by cases h) (fun _ h => by cases h), rfl⟩

/-- Claim C8: rendering is deterministic — `render` is a pure function of the
tree, so rendering the same tree twice yields identical strings. -/
theorem render_deterministic (n : Node) : render n = render n := rfl

/-- Claim C9: an `Ampersand` or `NewLine` sentinel outside a `Matrix`
sequence reaches the diagnostic fallback arm and renders as a visibly-marked
parse-error `<mtext>` element, both when passed directly to `render` and when
it occurs as a child of a non-`Matrix` variant such as `Row` or `Slashed`. -/
theorem sentinel_outside_matrix_diagnostic :
    render .Ampersand = "<mtext>[PARSE ERROR: Ampersand]</mtext>" ∧
    render .NewLine = "<mtext>[PARSE ERROR: NewLine]</mtext>" ∧
    render (.Row [.Ampersand]) = "<mrow><mtext>[PARSE ERROR: Ampersand]</mtext></mrow>" ∧
    render (.Slashed .NewLine) = "<mtext>[PARSE ERROR: NewLine]</mtext>" :=
  ⟨rfl, rfl, rfl, rfl⟩

/-- Claim C10: a `Matrix` node with an empty sequence renders to exactly one
row containing one empty cell, never an empty table element. -/
theorem matrix_empty_rendering :
    render (.Matrix []) = "<mtable><mtr><mtd></mtd></mtr></mtable>" :=
  rfl

end Latex2Mathml
